import Mathlib

/-!
Verification of the sector-scoped synchronization layer of the
`newportaldetarefascdu` portal: room allocations (upsert / clear),
profile-row mapping (specialty/sector delimiter split, status defaults),
sector-scoped room fetch, administrator self-protection paths, the
persisted floor selection, and the two date-key helpers.

Definitions are shallow embeddings of the TypeScript source:
JavaScript falsy-default idioms (`x || d`) become `jsOr` / `jsOrOpt`,
`String.prototype.split(" | ")` becomes `splitGo`, `trim` becomes
`jsTrim`, the `localStorage` is a partial map, and each Supabase call
becomes a pure function on an explicit list-of-rows state.
-/

namespace Portal

/-! ### JavaScript string primitives -/

/-- JS falsy-default on a string: `s || d` (empty string is falsy). -/
def jsOr (s d : String) : String :=
  if s = "" then d else s

/-- JS falsy-default on a nullable string: `x || d` where `x` may be
`null`/`undefined` (modelled as `none`) or empty (falsy). -/
def jsOrOpt (o : Option String) (d : String) : String :=
  match o with
  | none => d
  | some s => jsOr s d

/-- JS `String.prototype.trim()` on the character list. -/
def jsTrim (s : String) : String :=
  String.mk (((s.data.dropWhile Char.isWhitespace).reverse.dropWhile Char.isWhitespace).reverse)

/-- Worker for `split(" | ")`: scan left to right, cutting at each
leftmost occurrence of the three-character delimiter. -/
def splitGo : List Char → List Char → List (List Char)
  | ' ' :: '|' :: ' ' :: rest, acc => acc.reverse :: splitGo rest []
  | c :: rest, acc => splitGo rest (c :: acc)
  | [], acc => [acc.reverse]

/-- JS `s.split(" | ")`, as used for the `specialty | sector` field. -/
def jsSplitSpecialty (s : String) : List String :=
  (splitGo s.data []).map String.mk

/-- Whether the character list contains the `" | "` delimiter. -/
def containsDelim : List Char → Bool
  | ' ' :: '|' :: ' ' :: _ => true
  | _ :: rest => containsDelim rest
  | [] => false

/-- Boolean substring test on character lists (JS `includes`). -/
def listContainsSub (sub : List Char) : List Char → Bool
  | [] => sub.isEmpty
  | c :: rest => sub.isPrefixOf (c :: rest) || listContainsSub sub rest

/-- JS `hay.includes(sub)`. -/
def jsIncludes (hay sub : String) : Bool :=
  listContainsSub sub.data hay.data

/-- JS `s.toLowerCase()` (ASCII model). -/
def jsToLower (s : String) : String :=
  String.mk (s.data.map Char.toLower)

/-- JS `String(n).padStart(2, "0")`. -/
def padStart2 (s : String) : String :=
  String.mk (List.replicate (2 - s.length) '0') ++ s

/-! ### Allocation model (`room_allocations` table)

`handleAssignDoctor` in `DailyMap.tsx` issues
`supabase.from("room_allocations").upsert(row, onConflict: room_id,date,shift)`;
`handleClearSlot` issues a delete filtered by the same triple.  The table
is modelled as a list of rows; the upsert updates the conflicting row in
place when one exists and appends otherwise. -/

inductive Shift where
  | morning
  | afternoon
deriving DecidableEq, Repr

structure Alloc where
  room_id : String
  doctor_id : String
  date : String
  shift : Shift
  created_by : Option String
deriving DecidableEq, Repr

/-- Row matches the (room_id, date, shift) triple. -/
def matchKey (r d : String) (s : Shift) (a : Alloc) : Bool :=
  a.room_id == r && a.date == d && a.shift == s

/-- Rows `a` and `b` collide on the upsert conflict target
`room_id,date,shift`. -/
def sameKey (a b : Alloc) : Bool :=
  matchKey a.room_id a.date a.shift b

/-- The upsert of `handleAssignDoctor`: update the row with the same
conflict key in place, or insert. -/
def upsertAlloc (st : List Alloc) (a : Alloc) : List Alloc :=
  if st.any (sameKey a) then st.map (fun b => if sameKey a b then a else b)
  else st ++ [a]

/-- The row built by `handleAssignDoctor` before the upsert. -/
def assignRow (roomId doctorId dateKey : String) (shift : Shift)
    (userId : Option String) : Alloc :=
  { room_id := roomId, doctor_id := doctorId, date := dateKey,
    shift := shift, created_by := userId }

/-- A sequence of `assign` upserts applied to the table. -/
def applyAssigns (ops : List Alloc) : List Alloc :=
  ops.foldl upsertAlloc []

/-- The delete of `handleClearSlot`: remove every row matching the
(room_id, date, shift) filters. -/
def clearSlot (st : List Alloc) (r d : String) (s : Shift) : List Alloc :=
  st.filter (fun a => !(matchKey r d s a))

/-! ### Profile rows and their three mapping steps

A raw `profiles` row as read back from the store: the text columns are
nullable, `role` is read as a string, `is_admin` is read through `!!`
(or directly) as a boolean. -/

structure ProfileRow where
  id : String
  name : Option String
  email : Option String
  role : String
  specialty : Option String
  phone : Option String
  avatar : Option String
  status : Option String
  gender : Option String
  color : Option String
  is_admin : Bool
deriving DecidableEq, Repr

/-- The UI doctor shape produced by the professional mappings. -/
structure Doctor where
  id : String
  name : String
  specialty : String
  sector : String
  phone : String
  avatar : String
  color : String
  status : String
  isAdmin : Bool
deriving DecidableEq, Repr

/-- The unified user shape of the Users page. -/
structure UnifiedUser where
  id : String
  name : String
  roleType : String
  roleDisplay : String
  phone : String
  avatar : String
  status : String
  isAdmin : Bool
  email : Option String
  gender : Option String
deriving DecidableEq, Repr

/-- Mapping step of `fetchProfessionals` (Professionals page): splits
`specialty` on `" | "` into specialty (default `"Geral"`) and sector
(default empty), defaults `status` to `"active"`. -/
def mapProfessionalRow (p : ProfileRow) : Doctor :=
  let parts := jsSplitSpecialty (jsOrOpt p.specialty "")
  { id := p.id
    name := jsOrOpt p.name "Sem Nome"
    specialty := jsTrim (jsOr (parts.getD 0 "") "Geral")
    sector := jsTrim (parts.getD 1 "")
    phone := jsOrOpt p.phone ""
    avatar := jsOrOpt p.avatar ""
    color := ""
    status := jsOrOpt p.status "active"
    isAdmin := p.is_admin }

/-- Mapping step of `fetchDoctors` (DailyMap page): same split with
specialty default `"Médico"`, status default `"active"`. -/
def mapDoctorRow (p : ProfileRow) : Doctor :=
  let specialtyParts := jsSplitSpecialty (jsOrOpt p.specialty "")
  { id := p.id
    name := jsOrOpt p.name "Sem Nome"
    specialty := jsTrim (jsOr (specialtyParts.getD 0 "") "Médico")
    sector := jsTrim (specialtyParts.getD 1 "")
    phone := jsOrOpt p.phone ""
    avatar := jsOrOpt p.avatar ""
    color := jsOrOpt p.color ""
    status := jsOrOpt p.status "active"
    isAdmin := p.is_admin }

/-- Mapping step of `fetchUsers` (Users page): `roleDisplay` keeps the
raw composite specialty field, status default `"offline"`. -/
def mapUnifiedUser (p : ProfileRow) : UnifiedUser :=
  { id := p.id
    name := jsOrOpt p.name "Sem Nome"
    roleType := p.role
    roleDisplay := jsOrOpt p.specialty
      (if p.role = "reception" then "Recepção" else "Médico")
    phone := jsOrOpt p.phone ""
    avatar := jsOrOpt p.avatar ""
    status := jsOrOpt p.status "offline"
    isAdmin := p.is_admin
    email := p.email
    gender := p.gender }

/-! ### Synchronizer fetch steps and failure handling

Each fetch is a function of the previously cached collection and the
remote result; it returns the new cached collection together with the
user-visible notification it raises (`none` when only the console is
written to). -/

/-- `fetchUsers` (Users page): on success replace the cache with the
mapped rows; on failure keep the cache and raise the toast
`"Erro ao carregar usuários."`. -/
def fetchUsersStep (prev : List UnifiedUser)
    (res : Except String (List ProfileRow)) :
    List UnifiedUser × Option String :=
  match res with
  | .ok rows => (rows.map mapUnifiedUser, none)
  | .error _ => (prev, some "Erro ao carregar usuários.")

/-- `fetchAllocations` (DailyMap page): with no rooms in scope the cache
is reset without a remote call; on success replace the cache; on failure
keep the cache — the handler only writes to the console, no toast or
alert is raised. -/
def fetchAllocationsStep (prev : List Alloc) (roomIds : List String)
    (res : Except String (List Alloc)) :
    List Alloc × Option String :=
  if roomIds.isEmpty then ([], none)
  else
    match res with
    | .ok rows => (rows, none)
    | .error _ => (prev, none)

/-! ### Rooms: creation and sector-scoped fetch -/

structure Room where
  id : String
  name : String
  extension : String
  sector : String
  order : Nat
deriving DecidableEq, Repr

/-- Insertion sort by ascending `order` (model of
`.order("order", ascending: true)`). -/
def insertByOrder (r : Room) : List Room → List Room
  | [] => [r]
  | x :: xs => if r.order ≤ x.order then r :: x :: xs else x :: insertByOrder r xs

def sortByOrder (l : List Room) : List Room :=
  l.foldr insertByOrder []

/-- `fetchRooms` query (DailyMap page): rows with
`sector = selectedFloor`, ordered by `order` ascending. -/
def fetchRoomsQuery (db : List Room) (floorToFetch : String) : List Room :=
  sortByOrder (db.filter (fun r => r.sector == floorToFetch))

/-- The insert branch of `handleSaveRoom`: rejected when the trimmed
name is empty, otherwise inserts a row stamped with the currently
selected floor (`id` is generated by the store and passed in here). -/
def handleSaveRoomInsert (db : List Room) (newId name extension : String)
    (selectedFloor : String) (ord : Nat) : List Room :=
  if jsTrim name = "" then db
  else db ++ [{ id := newId, name := name, extension := extension,
                sector := selectedFloor, order := ord }]

/-- `fetchRooms` (DailyMap page) as a step: on success the cache and
the returned list are the fetched rows; on failure the cache is kept,
`[]` is returned, and only the console is written to (no toast or
alert). -/
def fetchRoomsStep (prev : List Room) (res : Except String (List Room)) :
    List Room × List Room × Option String :=
  match res with
  | .ok rows => (rows, rows, none)
  | .error _ => (prev, [], none)

/-! ### Users page administrator mutation paths

Each handler is modelled as the remote write it issues, `none` when the
call short-circuits without touching the store. -/

/-- Payload of a `profiles` write from the Users page. -/
structure ProfilePayload where
  name : String
  phone : String
  role : String
  specialty : String
  email : String
  gender : String
  is_admin : Bool
  avatar : String
deriving DecidableEq, Repr

inductive ProfileWrite where
  | updateAdmin (id : String) (is_admin : Bool)
  | deleteProfile (id : String)
  | updateProfile (id : String) (payload : ProfilePayload)
  | insertProfile (id : String) (payload : ProfilePayload)
deriving DecidableEq, Repr

/-- The avatar URL assembled by `handleSaveUser` (the percent-encoding
of the name is done by the browser API and taken as input). -/
def avatarUrl (encodedName role : String) : String :=
  "https://ui-avatars.com/api/?name=" ++ encodedName ++ "&background=" ++
    (if role = "reception" then "f97316" else "10605B") ++ "&color=fff"

/-- The form state of the Users page modal. -/
structure UserForm where
  name : String
  phone : String
  role : String
  roleDisplay : String
  email : String
  gender : String
  isAdmin : Bool
deriving DecidableEq, Repr

/-- `toggleAdmin`: rejects the actor's own id before any write,
otherwise updates `is_admin` to the negation of the current status. -/
def toggleAdmin (currentUserId : Option String) (userId : String)
    (currentStatus : Bool) : Option ProfileWrite :=
  if some userId = currentUserId then none
  else some (.updateAdmin userId (!currentStatus))

/-- `handleDeleteUser`: rejects the actor's own id before any write,
otherwise deletes the profile once the confirm dialog is accepted. -/
def handleDeleteUser (currentUserId : Option String) (userId : String)
    (confirmed : Bool) : Option ProfileWrite :=
  if some userId = currentUserId then none
  else if confirmed then some (.deleteProfile userId) else none

/-- The `profileData` object built by `handleSaveUser`. -/
def profilePayloadOf (form : UserForm) (encodedName : String) : ProfilePayload :=
  { name := form.name
    phone := form.phone
    role := form.role
    specialty := form.roleDisplay
    email := form.email
    gender := form.gender
    is_admin := form.isAdmin
    avatar := avatarUrl encodedName form.role }

/-- `handleSaveUser`: validation rejects an empty name or role display;
the edit path updates the edited profile (writing `is_admin` from the
form) with no self check; the create path inserts under a fresh id. -/
def handleSaveUser (editing : Option String) (form : UserForm)
    (encodedName newId : String) : Option ProfileWrite :=
  if form.name = "" ∨ form.roleDisplay = "" then none
  else
    match editing with
    | some editId => some (.updateProfile editId (profilePayloadOf form encodedName))
    | none => some (.insertProfile newId (profilePayloadOf form encodedName))

/-! ### Daily map allocation modal candidate list -/

/-- The doctor list offered by the allocation modal: name matches the
search (case-insensitively) and the parsed sector equals the selected
floor.  (The display sort by `localeCompare` does not change
membership and is omitted.) -/
def modalDoctors (doctors : List Doctor) (doctorSearch selectedFloor : String) :
    List Doctor :=
  doctors.filter (fun d =>
    jsIncludes (jsToLower d.name) (jsToLower doctorSearch) &&
      d.sector == selectedFloor)

/-- Clicking a candidate runs `handleAssignDoctor doctor.id` on the
selected slot: an upsert of the assembled row. -/
def assignViaModal (st : List Alloc) (roomId : String) (shift : Shift)
    (dateKey : String) (userId : Option String) (d : Doctor) : List Alloc :=
  upsertAlloc st (assignRow roomId d.id dateKey shift userId)

/-! ### Sector context: persisted floor selection -/

/-- The fixed sector labels (`FLOOR_OPTIONS` in AuthContext). -/
def FLOOR_OPTIONS : List String :=
  [ "10º Andar ( CENTRO CIRÚRGICO )",
    "9º Andar ( OFTALMOLOGIA )",
    "8º Andar ( CLÍNICA MÉDICA / CARDIOLOGIA )",
    "7º Andar ( PEDIATRIA / OTORRINO )",
    "6º Andar ( GINECOLOGIA / OBSTETRÍCIA )",
    "5º Andar ( ORTOPEDIA / VASCULAR )",
    "4º Andar ( ESP CIRÚRGICAS / DERMATOLOGIA )",
    "3º Andar ( SARA )",
    "2º Andar ( PSIQUISTRIA )",
    "CDU - CENTRO DE DIAGNÓSTICO UNIMED",
    "Térreo ( RECEPÇÃO / TRIAGEM )" ]

/-- The `localStorage` key of the floor selection. -/
def FLOOR_KEY : String := "mediportal_selected_floor"

/-- `localStorage` as a partial map from keys to stored strings. -/
def Storage : Type := String → Option String

/-- The `selectedFloor` initializer of `AuthProvider`:
`localStorage.getItem(key) || "9º Andar ( OFTALMOLOGIA )"`. -/
def getCurrentSector (store : Storage) : String :=
  jsOrOpt (store FLOOR_KEY) "9º Andar ( OFTALMOLOGIA )"

/-- `setSelectedFloor`: writes the label under the floor key. -/
def setCurrentSector (store : Storage) (floor : String) : Storage :=
  fun k => if k = FLOOR_KEY then some floor else store k

/-! ### Date keys -/

/-- A JS `Date` restricted to the fields the two helpers read:
`getFullYear()`, zero-based `getMonth()`, `getDate()`. -/
structure JSDate where
  year : Nat
  monthIndex : Nat
  dayOfMonth : Nat
deriving DecidableEq, Repr

/-- `formatDateKey` (DailyMap page). -/
def formatDateKey (date : JSDate) : String :=
  let year := date.year
  let month := padStart2 (toString (date.monthIndex + 1))
  let day := padStart2 (toString date.dayOfMonth)
  toString year ++ "-" ++ month ++ "-" ++ day

/-- `getLocalDateKey` (Dashboard page), applied to the `Date` value it
reads from the clock. -/
def getLocalDateKey (d : JSDate) : String :=
  let year := d.year
  let month := padStart2 (toString (d.monthIndex + 1))
  let day := padStart2 (toString d.dayOfMonth)
  toString year ++ "-" ++ month ++ "-" ++ day

/-! ### Lemmas about the allocation upsert -/

theorem matchKey_eq_true (r d : String) (s : Shift) (a : Alloc) :
    matchKey r d s a = true ↔ (a.room_id = r ∧ a.date = d ∧ a.shift = s) := by
  simp [matchKey, and_assoc]

theorem sameKey_of_match (r d : String) (s : Shift) (a : Alloc)
    (h : matchKey r d s a = true) :
    ∀ b, sameKey a b = matchKey r d s b := by
  intro b
  rcases (matchKey_eq_true r d s a).mp h with ⟨h1, h2, h3⟩
  simp [sameKey, h1, h2, h3]

theorem filter_map_overwrite (r d : String) (s : Shift) (a : Alloc)
    (h : matchKey r d s a = true) (l : List Alloc) :
    (l.map (fun b => if sameKey a b then a else b)).filter (matchKey r d s)
      = List.replicate (l.filter (matchKey r d s)).length a := by
  induction l with
  | nil => simp
  | cons x xs ih =>
    have hsk := sameKey_of_match r d s a h x
    by_cases hx : matchKey r d s x = true
    · simp [List.filter_cons, hsk, hx, h, ih, List.replicate_succ]
    · have hx' : matchKey r d s x = false := Bool.eq_false_iff.mpr hx
      simp [List.filter_cons, hsk, hx', ih]

theorem filter_map_no_new_match (r d : String) (s : Shift) (a : Alloc)
    (h : matchKey r d s a = false) (l : List Alloc) :
    (l.map (fun b => if sameKey a b then a else b)).filter (matchKey r d s)
      = l.filter (matchKey r d s) := by
  induction l with
  | nil => simp
  | cons x xs ih =>
    by_cases hx : matchKey r d s x = true
    · have hsk : sameKey a x = false := by
        rcases (matchKey_eq_true r d s x).mp hx with ⟨h1, h2, h3⟩
        cases hab : sameKey a x with
        | false => rfl
        | true =>
          rcases (matchKey_eq_true a.room_id a.date a.shift x).mp hab with ⟨g1, g2, g3⟩
          have : matchKey r d s a = true := by
            rw [matchKey_eq_true]
            exact ⟨by rw [← g1, h1], by rw [← g2, h2], by rw [← g3, h3]⟩
          rw [this] at h
          exact absurd h (by simp)
      simp [List.filter_cons, hsk, hx, ih]
    · have hx' : matchKey r d s x = false := Bool.eq_false_iff.mpr hx
      by_cases hab : sameKey a x = true
      · simp [List.filter_cons, hab, h, hx', ih]
      · simp [List.filter_cons, Bool.eq_false_iff.mpr hab, hx', ih]

theorem filter_upsert_match (st : List Alloc) (r d : String) (s : Shift)
    (a : Alloc) (hlen : (st.filter (matchKey r d s)).length ≤ 1)
    (h : matchKey r d s a = true) :
    (upsertAlloc st a).filter (matchKey r d s) = [a] := by
  unfold upsertAlloc
  by_cases hany : st.any (sameKey a) = true
  · rw [if_pos hany, filter_map_overwrite r d s a h]
    rcases List.any_eq_true.mp hany with ⟨b, hb, hsk⟩
    have hbmatch : matchKey r d s b = true := by
      rw [← sameKey_of_match r d s a h b]; exact hsk
    have hmem : b ∈ st.filter (matchKey r d s) := List.mem_filter.mpr ⟨hb, hbmatch⟩
    have hpos : 0 < (st.filter (matchKey r d s)).length :=
      List.length_pos.mpr (List.ne_nil_of_mem hmem)
    have : (st.filter (matchKey r d s)).length = 1 := Nat.le_antisymm hlen hpos
    rw [this]
    simp
  · rw [if_neg hany]
    have hnil : st.filter (matchKey r d s) = [] := by
      rw [List.filter_eq_nil_iff]
      intro b hb hmatch
      apply hany
      refine List.any_eq_true.mpr ⟨b, hb, ?_⟩
      rw [sameKey_of_match r d s a h b]
      exact hmatch
    simp [List.filter_append, List.filter_cons, h, hnil]

theorem filter_upsert_no_match (st : List Alloc) (r d : String) (s : Shift)
    (a : Alloc) (h : matchKey r d s a = false) :
    (upsertAlloc st a).filter (matchKey r d s) = st.filter (matchKey r d s) := by
  unfold upsertAlloc
  by_cases hany : st.any (sameKey a) = true
  · rw [if_pos hany, filter_map_no_new_match r d s a h]
  · rw [if_neg hany]
    simp [List.filter_append, List.filter_cons, h]

theorem applyAssigns_concat (ops : List Alloc) (a : Alloc) :
    applyAssigns (ops ++ [a]) = upsertAlloc (applyAssigns ops) a := by
  simp [applyAssigns, List.foldl_append]

/-- C1: for every (room, date, shift) triple, after any sequence of
`assign` upserts (conflict target exactly `room_id,date,shift`,
last-write-wins) at most one allocation row exists for that triple; if
no assign targeted the triple no row exists for it, and otherwise the
row equals — in particular its doctor equals the doctor of — the most
recent assign to that triple. -/
theorem assign_last_write_wins (ops : List Alloc) (r d : String) (s : Shift) :
    ((applyAssigns ops).filter (matchKey r d s)).length ≤ 1 ∧
    (ops.filter (matchKey r d s) = [] →
      (applyAssigns ops).filter (matchKey r d s) = []) ∧
    (∀ a, (ops.filter (matchKey r d s)).getLast? = some a →
      (applyAssigns ops).filter (matchKey r d s) = [a]) := by
  induction ops using List.reverseRecOn with
  | nil => simp [applyAssigns]
  | append_singleton ops a ih =>
    rw [applyAssigns_concat]
    by_cases ha : matchKey r d s a = true
    · have hres := filter_upsert_match (applyAssigns ops) r d s a ih.1 ha
      refine ⟨by rw [hres]; simp, ?_, ?_⟩
      · intro hnil
        rw [List.filter_append, List.filter_cons, if_pos ha] at hnil
        simp at hnil
      · intro b hb
        rw [List.filter_append, List.filter_cons, if_pos ha,
          List.filter_nil] at hb
        rw [List.getLast?_concat] at hb
        injection hb with hb
        rw [hres, hb]
    · have ha' : matchKey r d s a = false := Bool.eq_false_iff.mpr ha
      have hres := filter_upsert_no_match (applyAssigns ops) r d s a ha'
      have hfil : (ops ++ [a]).filter (matchKey r d s)
          = ops.filter (matchKey r d s) := by
        simp [List.filter_append, List.filter_cons, ha']
      rw [hres, hfil]
      exact ih

/-- Witness for C1 at a concrete double booking of the same slot. -/
theorem assign_last_write_wins_witness :
    (List.filter (matchKey "r1" "2024-01-10" Shift.morning)
        [Alloc.mk "r1" "doc1" "2024-01-10" Shift.morning (some "u"),
         Alloc.mk "r1" "doc2" "2024-01-10" Shift.morning (some "u")]).getLast?
      = some (Alloc.mk "r1" "doc2" "2024-01-10" Shift.morning (some "u")) ∧
    (applyAssigns
        [Alloc.mk "r1" "doc1" "2024-01-10" Shift.morning (some "u"),
         Alloc.mk "r1" "doc2" "2024-01-10" Shift.morning (some "u")]).filter
        (matchKey "r1" "2024-01-10" Shift.morning)
      = [Alloc.mk "r1" "doc2" "2024-01-10" Shift.morning (some "u")] :=
  ⟨by decide,
   (assign_last_write_wins
      [Alloc.mk "r1" "doc1" "2024-01-10" Shift.morning (some "u"),
       Alloc.mk "r1" "doc2" "2024-01-10" Shift.morning (some "u")]
      "r1" "2024-01-10" Shift.morning).2.2
     (Alloc.mk "r1" "doc2" "2024-01-10" Shift.morning (some "u")) (by decide)⟩

/-! ### Lemmas about clearing a slot -/

theorem clear_of_no_row (st : List Alloc) (r d : String) (s : Shift)
    (h : st.filter (matchKey r d s) = []) :
    clearSlot st r d s = st := by
  rw [clearSlot, List.filter_eq_self]
  intro a ha
  have := (List.filter_eq_nil_iff.mp h) a ha
  simp [Bool.eq_false_iff.mpr this]

theorem clear_of_single_row (st : List Alloc) (r d : String) (s : Shift)
    (x : Alloc) (h : st.filter (matchKey r d s) = [x]) :
    clearSlot st r d s = st.erase x := by
  induction st with
  | nil => simp at h
  | cons y ys ih =>
    by_cases hy : matchKey r d s y = true
    · rw [List.filter_cons, if_pos hy] at h
      injection h with h1 h2
      subst h1
      rw [clearSlot, List.filter_cons, if_neg (by simp [hy]),
        ← clearSlot, clear_of_no_row ys r d s h2, List.erase_cons_head]
    · have hy' : matchKey r d s y = false := Bool.eq_false_iff.mpr hy
      rw [List.filter_cons, if_neg (by simp [hy'])] at h
      have hxy : y ≠ x := by
        intro he
        have hx : x ∈ ys.filter (matchKey r d s) := by rw [h]; simp
        have := (List.mem_filter.mp hx).2
        rw [← he] at this
        rw [this] at hy'
        simp at hy'
      rw [clearSlot, List.filter_cons, if_pos (by simp [hy']), ← clearSlot,
        ih h, List.erase_cons_tail (by simp [hxy])]

/-- C5: `clear(room, date, shift)` with no allocation for the triple is
a no-op (no error, state unchanged); with an allocation present it
deletes exactly that row; and afterwards no row for the triple
remains. -/
theorem clear_slot_spec (st : List Alloc) (r d : String) (s : Shift) :
    (st.filter (matchKey r d s) = [] → clearSlot st r d s = st) ∧
    (∀ x, st.filter (matchKey r d s) = [x] → clearSlot st r d s = st.erase x) ∧
    (clearSlot st r d s).filter (matchKey r d s) = [] := by
  refine ⟨clear_of_no_row st r d s, fun x => clear_of_single_row st r d s x, ?_⟩
  rw [List.filter_eq_nil_iff]
  intro a ha
  have := (List.mem_filter.mp ha).2
  simp at this
  simp [this]

/-- Witness for C5: an empty slot is cleared as a no-op, and an
occupied slot loses exactly its row. -/
theorem clear_slot_spec_witness :
    (List.filter (matchKey "r2" "2024-01-10" Shift.afternoon)
        [Alloc.mk "r1" "doc1" "2024-01-10" Shift.afternoon (some "u")] = []
      ∧ clearSlot [Alloc.mk "r1" "doc1" "2024-01-10" Shift.afternoon (some "u")]
          "r2" "2024-01-10" Shift.afternoon
        = [Alloc.mk "r1" "doc1" "2024-01-10" Shift.afternoon (some "u")]) ∧
    clearSlot [Alloc.mk "r1" "doc1" "2024-01-10" Shift.afternoon (some "u")]
        "r1" "2024-01-10" Shift.afternoon
      = List.erase [Alloc.mk "r1" "doc1" "2024-01-10" Shift.afternoon (some "u")]
          (Alloc.mk "r1" "doc1" "2024-01-10" Shift.afternoon (some "u")) :=
  ⟨⟨by decide,
    (clear_slot_spec [Alloc.mk "r1" "doc1" "2024-01-10" Shift.afternoon (some "u")]
        "r2" "2024-01-10" Shift.afternoon).1 (by decide)⟩,
   (clear_slot_spec [Alloc.mk "r1" "doc1" "2024-01-10" Shift.afternoon (some "u")]
        "r1" "2024-01-10" Shift.afternoon).2.1
     (Alloc.mk "r1" "doc1" "2024-01-10" Shift.afternoon (some "u")) (by decide)⟩

/-! ### C2: administrator self-protection -/

/-- C2 counterexample: the claim states that every administrator
mutation path, including the edit-and-save path, rejects a
self-targeting call before any remote write.  But `handleSaveUser`
performs no self check: with the actor id `"X"` editing the profile
with id `"X"`, the edit-and-save path issues a remote `profiles` update
that writes `is_admin` (here demoting the actor to non-admin). -/
theorem self_protection_counterexample :
    handleSaveUser (some "X")
        (UserForm.mk "Ana" "" "reception" "Térreo ( RECEPÇÃO / TRIAGEM )"
          "" "male" false) "Ana" "newid"
      = some (ProfileWrite.updateProfile "X"
          (profilePayloadOf
            (UserForm.mk "Ana" "" "reception" "Térreo ( RECEPÇÃO / TRIAGEM )"
              "" "male" false) "Ana")) ∧
    (profilePayloadOf
        (UserForm.mk "Ana" "" "reception" "Térreo ( RECEPÇÃO / TRIAGEM )"
          "" "male" false) "Ana").is_admin = false := by
  constructor
  · rfl
  · rfl

/-- C2 amended: `toggleAdmin` and `handleDeleteUser` reject a call
targeting the actor's own id before any remote write; the
edit-and-save path (`handleSaveUser`) performs no self check and, once
validation passes, issues the `profiles` update — which writes
`is_admin` from the form — for whichever profile is being edited,
including the actor's own. -/
theorem self_protection_two_paths (cur : Option String) (uid : String)
    (b conf : Bool) (editing : Option String) (form : UserForm)
    (encodedName newId : String) :
    (some uid = cur → toggleAdmin cur uid b = none) ∧
    (some uid = cur → handleDeleteUser cur uid conf = none) ∧
    (form.name ≠ "" → form.roleDisplay ≠ "" →
      handleSaveUser editing form encodedName newId
        = some (match editing with
            | some editId =>
                ProfileWrite.updateProfile editId (profilePayloadOf form encodedName)
            | none =>
                ProfileWrite.insertProfile newId (profilePayloadOf form encodedName))) := by
    refine ⟨fun h => ?_, fun h => ?_, fun h1 h2 => ?_⟩
    · simp [toggleAdmin, h]
    · simp [handleDeleteUser, h]
    · unfold handleSaveUser
      rw [if_neg (by simp [h1, h2])]
      cases editing <;> rfl

/-- Witness for the amended C2 at concrete inputs. -/
theorem self_protection_two_paths_witness :
    (some "X" = some "X" ∧
      toggleAdmin (some "X") "X" true = none ∧
      handleDeleteUser (some "X") "X" true = none) ∧
    (handleSaveUser (some "X")
        (UserForm.mk "Bia" "99" "doctor" "Cardiologia" "b@x" "female" true)
        "Bia" "newid"
      = some (ProfileWrite.updateProfile "X"
          (profilePayloadOf
            (UserForm.mk "Bia" "99" "doctor" "Cardiologia" "b@x" "female" true)
            "Bia"))) :=
  ⟨⟨rfl,
    (self_protection_two_paths (some "X") "X" true true (some "X")
        (UserForm.mk "Bia" "99" "doctor" "Cardiologia" "b@x" "female" true)
        "Bia" "newid").1 rfl,
    (self_protection_two_paths (some "X") "X" true true (some "X")
        (UserForm.mk "Bia" "99" "doctor" "Cardiologia" "b@x" "female" true)
        "Bia" "newid").2.1 rfl⟩,
   (self_protection_two_paths (some "X") "X" true true (some "X")
        (UserForm.mk "Bia" "99" "doctor" "Cardiologia" "b@x" "female" true)
        "Bia" "newid").2.2 (by decide) (by decide)⟩

/-! ### C4: failure handling of the synchronizer fetches -/

/-- C4 counterexample: the claim states that every synchronizer fetch
surfaces a remote failure to the user as a notification.  But the
allocations fetch of the daily map, on a failed remote call with a
non-empty room scope, keeps the cache and raises no notification at
all (it only writes to the console): the notification component is
`none`. -/
theorem fetch_failure_counterexample :
    fetchAllocationsStep
        [Alloc.mk "r1" "doc1" "2024-01-10" Shift.morning (some "u")]
        ["r1"] (Except.error "network unreachable")
      = ([Alloc.mk "r1" "doc1" "2024-01-10" Shift.morning (some "u")], none) := by
  rfl

/-- C4 amended: on a failed remote call every modelled fetch retains
the previously cached collection unchanged, but only the profiles
fetch of the Users page surfaces the failure as a user-visible
notification; the daily-map allocations and rooms fetches retain the
stale cache silently (console log only). -/
theorem fetch_failure_handling (prevU : List UnifiedUser)
    (prevA : List Alloc) (prevR : List Room) (ids : List String)
    (e : String) :
    fetchUsersStep prevU (Except.error e)
      = (prevU, some "Erro ao carregar usuários.") ∧
    (ids ≠ [] →
      fetchAllocationsStep prevA ids (Except.error e) = (prevA, none)) ∧
    fetchRoomsStep prevR (Except.error e) = (prevR, [], none) := by
  refine ⟨rfl, fun h => ?_, rfl⟩
  simp [fetchAllocationsStep, h]

/-- Witness for the amended C4 at concrete inputs. -/
theorem fetch_failure_handling_witness :
    fetchUsersStep [] (Except.error "net")
      = ([], some "Erro ao carregar usuários.") ∧
    (["r1"] ≠ ([] : List String) ∧
      fetchAllocationsStep
          [Alloc.mk "r1" "doc1" "2024-01-10" Shift.morning none]
          ["r1"] (Except.error "net")
        = ([Alloc.mk "r1" "doc1" "2024-01-10" Shift.morning none], none)) ∧
    fetchRoomsStep [Room.mk "a" "Sala 1" "201" "CDU - CENTRO DE DIAGNÓSTICO UNIMED" 0]
        (Except.error "net")
      = ([Room.mk "a" "Sala 1" "201" "CDU - CENTRO DE DIAGNÓSTICO UNIMED" 0], [], none) :=
  ⟨(fetch_failure_handling [] [] [] ["r1"] "net").1,
   ⟨by decide,
    (fetch_failure_handling []
        [Alloc.mk "r1" "doc1" "2024-01-10" Shift.morning none] [] ["r1"] "net").2.1
      (by decide)⟩,
   (fetch_failure_handling [] []
      [Room.mk "a" "Sala 1" "201" "CDU - CENTRO DE DIAGNÓSTICO UNIMED" 0]
      ["r1"] "net").2.2⟩

/-! ### C3: the specialty/sector delimiter split -/

theorem splitGo_no_delim (l acc : List Char) (h : containsDelim l = false) :
    splitGo l acc = [acc.reverse ++ l] := by
  induction l, acc using splitGo.induct with
  | case1 rest acc ih => simp [containsDelim] at h
  | case2 c rest acc hne ih =>
    rw [containsDelim] at h
    rw [splitGo]
    rw [ih h]
    simp
    all_goals exact hne
  | case3 acc => simp [splitGo]

theorem jsOr_empty_default (s : String) : jsOr s "" = s := by
  by_cases h : s = "" <;> simp [jsOr, h]

theorem jsSplitSpecialty_no_delim (s : String)
    (h : containsDelim s.data = false) : jsSplitSpecialty s = [s] := by
  rw [jsSplitSpecialty, splitGo_no_delim s.data [] h]
  rfl

/-- C3: the mapping step splits the stored specialty string on the
delimiter `" | "` into specialty (first segment) and sector (second
segment); a row whose specialty contains no delimiter (or is null)
maps to an empty sector; and the row with specialty
`"Cardiologia | 8º Andar ( CLÍNICA MÉDICA / CARDIOLOGIA )"` maps to
specialty `"Cardiologia"` and sector
`"8º Andar ( CLÍNICA MÉDICA / CARDIOLOGIA )"`. -/
theorem specialty_sector_mapping (p : ProfileRow) :
    (∀ s, p.specialty = some s → containsDelim s.data = false →
      (mapProfessionalRow p).sector = "") ∧
    (p.specialty = none → (mapProfessionalRow p).sector = "") ∧
    (p.specialty = some "Cardiologia | 8º Andar ( CLÍNICA MÉDICA / CARDIOLOGIA )" →
      (mapProfessionalRow p).specialty = "Cardiologia" ∧
      (mapProfessionalRow p).sector = "8º Andar ( CLÍNICA MÉDICA / CARDIOLOGIA )") := by
  refine ⟨?_, ?_, ?_⟩
  · intro s hs hnd
    have h1 : jsOrOpt p.specialty "" = s := by
      rw [hs]
      exact jsOr_empty_default s
    show jsTrim ((jsSplitSpecialty (jsOrOpt p.specialty "")).getD 1 "") = ""
    rw [h1, jsSplitSpecialty_no_delim s hnd]
    rfl
  · intro hs
    show jsTrim ((jsSplitSpecialty (jsOrOpt p.specialty "")).getD 1 "") = ""
    rw [hs]
    rfl
  · intro hs
    constructor
    · show jsTrim (jsOr ((jsSplitSpecialty (jsOrOpt p.specialty "")).getD 0 "") "Geral")
        = "Cardiologia"
      rw [hs]
      decide
    · show jsTrim ((jsSplitSpecialty (jsOrOpt p.specialty "")).getD 1 "")
        = "8º Andar ( CLÍNICA MÉDICA / CARDIOLOGIA )"
      rw [hs]
      decide

/-- Witness for C3 at three concrete profile rows. -/
theorem specialty_sector_mapping_witness :
    (mapProfessionalRow
        (ProfileRow.mk "p1" (some "Drº X") none "doctor" (some "Cardiologia")
          none none none none none false)).sector = "" ∧
    (mapProfessionalRow
        (ProfileRow.mk "p2" (some "Drº Y") none "doctor" none
          none none none none none false)).sector = "" ∧
    ((mapProfessionalRow
        (ProfileRow.mk "p3" (some "Drº Z") none "doctor"
          (some "Cardiologia | 8º Andar ( CLÍNICA MÉDICA / CARDIOLOGIA )")
          none none none none none false)).specialty = "Cardiologia" ∧
      (mapProfessionalRow
        (ProfileRow.mk "p3" (some "Drº Z") none "doctor"
          (some "Cardiologia | 8º Andar ( CLÍNICA MÉDICA / CARDIOLOGIA )")
          none none none none none false)).sector
        = "8º Andar ( CLÍNICA MÉDICA / CARDIOLOGIA )") :=
  ⟨(specialty_sector_mapping
      (ProfileRow.mk "p1" (some "Drº X") none "doctor" (some "Cardiologia")
        none none none none none false)).1 "Cardiologia" rfl (by decide),
   (specialty_sector_mapping
      (ProfileRow.mk "p2" (some "Drº Y") none "doctor" none
        none none none none none false)).2.1 rfl,
   (specialty_sector_mapping
      (ProfileRow.mk "p3" (some "Drº Z") none "doctor"
        (some "Cardiologia | 8º Andar ( CLÍNICA MÉDICA / CARDIOLOGIA )")
        none none none none none false)).2.2 rfl⟩

/-! ### C6: sector scoping of rooms -/

theorem mem_insertByOrder (r x : Room) (l : List Room) :
    x ∈ insertByOrder r l ↔ x = r ∨ x ∈ l := by
  induction l with
  | nil => simp [insertByOrder]
  | cons y ys ih =>
    by_cases h : r.order ≤ y.order
    · simp [insertByOrder, h]
    · simp [insertByOrder, h, ih]
      tauto

theorem mem_sortByOrder (x : Room) (l : List Room) :
    x ∈ sortByOrder l ↔ x ∈ l := by
  induction l with
  | nil => simp [sortByOrder]
  | cons y ys ih =>
    show x ∈ insertByOrder y (sortByOrder ys) ↔ x ∈ y :: ys
    simp [mem_insertByOrder, ih]

theorem sector_of_mem_fetch (db : List Room) (floor : String) (room : Room)
    (h : room ∈ fetchRoomsQuery db floor) : room.sector = floor := by
  rw [fetchRoomsQuery, mem_sortByOrder] at h
  have := (List.mem_filter.mp h).2
  simpa using this

/-- C6: a room created while sector `S1` is selected is stamped with
`S1`, and the room fetch filters on equality with the selected sector,
so for `S1 ≠ S2` the fetch under `S2` is unchanged by the creation and
every fetched room belongs to `S2`. -/
theorem room_sector_scoping (db : List Room)
    (newId name extension S1 S2 : String) (ord : Nat) (h : S1 ≠ S2) :
    fetchRoomsQuery (handleSaveRoomInsert db newId name extension S1 ord) S2
      = fetchRoomsQuery db S2 ∧
    ∀ room ∈ fetchRoomsQuery (handleSaveRoomInsert db newId name extension S1 ord) S2,
      room.sector = S2 := by
  have hfetch :
      fetchRoomsQuery (handleSaveRoomInsert db newId name extension S1 ord) S2
        = fetchRoomsQuery db S2 := by
    unfold handleSaveRoomInsert
    by_cases hname : jsTrim name = ""
    · rw [if_pos hname]
    · rw [if_neg hname]
      unfold fetchRoomsQuery
      rw [List.filter_append]
      have : List.filter (fun r => r.sector == S2)
          [Room.mk newId name extension S1 ord] = [] := by
        simp [List.filter_cons, h]
      rw [this, List.append_nil]
  exact ⟨hfetch, fun room hr => sector_of_mem_fetch _ S2 room (hfetch ▸ hr)⟩

/-- Witness for C6: a room created under the CDU sector does not
appear when the 9th floor is selected. -/
theorem room_sector_scoping_witness :
    ("CDU - CENTRO DE DIAGNÓSTICO UNIMED" ≠ "9º Andar ( OFTALMOLOGIA )") ∧
    fetchRoomsQuery
        (handleSaveRoomInsert [] "room1" "Sala 1" "201"
          "CDU - CENTRO DE DIAGNÓSTICO UNIMED" 0)
        "9º Andar ( OFTALMOLOGIA )"
      = fetchRoomsQuery [] "9º Andar ( OFTALMOLOGIA )" :=
  ⟨by decide,
   (room_sector_scoping [] "room1" "Sala 1" "201"
      "CDU - CENTRO DE DIAGNÓSTICO UNIMED" "9º Andar ( OFTALMOLOGIA )" 0
      (by decide)).1⟩

/-! ### C7: status defaulting in the three row mappings -/

/-- C7: a raw profile row with a missing (null or empty) status maps to
the default `"active"` on both doctor mappings and `"offline"` on the
generic users mapping; a present non-empty status is kept unchanged by
all three. -/
theorem status_default_mapping (p : ProfileRow) :
    ((p.status = none ∨ p.status = some "") →
      (mapProfessionalRow p).status = "active" ∧
      (mapDoctorRow p).status = "active" ∧
      (mapUnifiedUser p).status = "offline") ∧
    (∀ s, p.status = some s → s ≠ "" →
      (mapProfessionalRow p).status = s ∧
      (mapDoctorRow p).status = s ∧
      (mapUnifiedUser p).status = s) := by
  constructor
  · intro h
    rcases h with h | h <;>
      refine ⟨?_, ?_, ?_⟩ <;>
        simp [mapProfessionalRow, mapDoctorRow, mapUnifiedUser, jsOrOpt, jsOr, h]
  · intro s hs hne
    refine ⟨?_, ?_, ?_⟩ <;>
      simp [mapProfessionalRow, mapDoctorRow, mapUnifiedUser, jsOrOpt, jsOr, hs, hne]

/-- Witness for C7 at two concrete rows: one with a null status, one
with status `"vacation"`. -/
theorem status_default_mapping_witness :
    ((mapProfessionalRow
        (ProfileRow.mk "p1" (some "Drº X") none "doctor" none
          none none none none none false)).status = "active" ∧
      (mapDoctorRow
        (ProfileRow.mk "p1" (some "Drº X") none "doctor" none
          none none none none none false)).status = "active" ∧
      (mapUnifiedUser
        (ProfileRow.mk "p1" (some "Drº X") none "doctor" none
          none none none none none false)).status = "offline") ∧
    ((mapProfessionalRow
        (ProfileRow.mk "p2" (some "Drº Y") none "doctor" none
          none none (some "vacation") none none false)).status = "vacation" ∧
      (mapDoctorRow
        (ProfileRow.mk "p2" (some "Drº Y") none "doctor" none
          none none (some "vacation") none none false)).status = "vacation" ∧
      (mapUnifiedUser
        (ProfileRow.mk "p2" (some "Drº Y") none "doctor" none
          none none (some "vacation") none none false)).status = "vacation") :=
  ⟨(status_default_mapping
      (ProfileRow.mk "p1" (some "Drº X") none "doctor" none
        none none none none none false)).1 (Or.inl rfl),
   (status_default_mapping
      (ProfileRow.mk "p2" (some "Drº Y") none "doctor" none
        none none (some "vacation") none none false)).2
     "vacation" rfl (by decide)⟩

/-! ### C8: the allocation modal only offers same-sector doctors -/

theorem mem_upsertAlloc (st : List Alloc) (x a : Alloc)
    (h : a ∈ upsertAlloc st x) : a ∈ st ∨ a = x := by
  unfold upsertAlloc at h
  by_cases hany : st.any (sameKey x) = true
  · rw [if_pos hany] at h
    rcases List.mem_map.mp h with ⟨b, hb, hba⟩
    by_cases hsk : sameKey x b = true
    · rw [if_pos hsk] at hba
      exact Or.inr hba.symm
    · rw [if_neg hsk] at hba
      exact Or.inl (hba ▸ hb)
  · rw [if_neg hany] at h
    rcases List.mem_append.mp h with h | h
    · exact Or.inl h
    · exact Or.inr (List.mem_singleton.mp h)

/-- C8: every doctor offered by the allocation modal has parsed sector
equal to the currently selected floor, and assigning an offered doctor
only adds an allocation whose doctor is one of those same-sector
doctors — no doctor from another sector can be assigned via this
path. -/
theorem modal_assign_same_sector (doctors : List Doctor)
    (doctorSearch selectedFloor : String) (d : Doctor)
    (hd : d ∈ modalDoctors doctors doctorSearch selectedFloor) :
    d.sector = selectedFloor ∧
    ∀ (st : List Alloc) (roomId dateKey : String) (sh : Shift)
      (uid : Option String),
      ∀ a ∈ assignViaModal st roomId sh dateKey uid d,
        a ∈ st ∨ (a.doctor_id = d.id ∧
          ∃ doc ∈ doctors, doc.sector = selectedFloor ∧ doc.id = a.doctor_id) := by
  have hmem := List.mem_filter.mp hd
  have hsec : d.sector = selectedFloor := by
    have := hmem.2
    simp only [Bool.and_eq_true, beq_iff_eq] at this
    exact this.2
  refine ⟨hsec, ?_⟩
  intro st roomId dateKey sh uid a ha
  rcases mem_upsertAlloc st _ a ha with h | h
  · exact Or.inl h
  · refine Or.inr ⟨by rw [h]; rfl, d, hmem.1, hsec, by rw [h]; rfl⟩

/-- Witness for C8: with one cardiology doctor registered on the CDU
sector and an empty search, the modal offers that doctor and assigning
them creates exactly one allocation carrying their id. -/
theorem modal_assign_same_sector_witness :
    (Doctor.mk "doc1" "Drº X" "Cardiologia"
        "CDU - CENTRO DE DIAGNÓSTICO UNIMED" "" "" "" "active" false
      ∈ modalDoctors
        [Doctor.mk "doc1" "Drº X" "Cardiologia"
          "CDU - CENTRO DE DIAGNÓSTICO UNIMED" "" "" "" "active" false]
        "" "CDU - CENTRO DE DIAGNÓSTICO UNIMED") ∧
    (Doctor.mk "doc1" "Drº X" "Cardiologia"
        "CDU - CENTRO DE DIAGNÓSTICO UNIMED" "" "" "" "active" false).sector
      = "CDU - CENTRO DE DIAGNÓSTICO UNIMED" ∧
    (Alloc.mk "r1" "doc1" "2024-01-10" Shift.morning (some "u") ∈ ([] : List Alloc)
      ∨ ((Alloc.mk "r1" "doc1" "2024-01-10" Shift.morning (some "u")).doctor_id
            = (Doctor.mk "doc1" "Drº X" "Cardiologia"
                "CDU - CENTRO DE DIAGNÓSTICO UNIMED" "" "" "" "active" false).id ∧
          ∃ doc ∈ [Doctor.mk "doc1" "Drº X" "Cardiologia"
              "CDU - CENTRO DE DIAGNÓSTICO UNIMED" "" "" "" "active" false],
            doc.sector = "CDU - CENTRO DE DIAGNÓSTICO UNIMED" ∧
            doc.id = (Alloc.mk "r1" "doc1" "2024-01-10" Shift.morning (some "u")).doctor_id)) :=
  ⟨by decide,
   (modal_assign_same_sector
      [Doctor.mk "doc1" "Drº X" "Cardiologia"
        "CDU - CENTRO DE DIAGNÓSTICO UNIMED" "" "" "" "active" false]
      "" "CDU - CENTRO DE DIAGNÓSTICO UNIMED"
      (Doctor.mk "doc1" "Drº X" "Cardiologia"
        "CDU - CENTRO DE DIAGNÓSTICO UNIMED" "" "" "" "active" false)
      (by decide)).1,
   (modal_assign_same_sector
      [Doctor.mk "doc1" "Drº X" "Cardiologia"
        "CDU - CENTRO DE DIAGNÓSTICO UNIMED" "" "" "" "active" false]
      "" "CDU - CENTRO DE DIAGNÓSTICO UNIMED"
      (Doctor.mk "doc1" "Drº X" "Cardiologia"
        "CDU - CENTRO DE DIAGNÓSTICO UNIMED" "" "" "" "active" false)
      (by decide)).2
     [] "r1" "2024-01-10" Shift.morning (some "u")
     (Alloc.mk "r1" "doc1" "2024-01-10" Shift.morning (some "u"))
     (by decide)⟩

/-! ### C9: the persisted floor selection -/

/-- C9: with nothing persisted under `mediportal_selected_floor` the
selected sector is the fixed default `"9º Andar ( OFTALMOLOGIA )"`, and
once a sector label is stored any later read (the state initializer
runs against the same storage on reload) returns that label. -/
theorem floor_selection_persistence (store : Storage) (L : String) :
    (store FLOOR_KEY = none →
      getCurrentSector store = "9º Andar ( OFTALMOLOGIA )") ∧
    (L ∈ FLOOR_OPTIONS →
      getCurrentSector (setCurrentSector store L) = L) := by
  constructor
  · intro h
    rw [getCurrentSector, h]
    rfl
  · intro hL
    have hne : L ≠ "" := by fin_cases hL <;> decide
    simp [getCurrentSector, setCurrentSector, jsOrOpt, jsOr, hne]

/-- Witness for C9: an empty storage yields the default floor, and a
stored CDU selection is read back. -/
theorem floor_selection_persistence_witness :
    getCurrentSector (fun _ => none) = "9º Andar ( OFTALMOLOGIA )" ∧
    getCurrentSector
        (setCurrentSector (fun _ => none) "CDU - CENTRO DE DIAGNÓSTICO UNIMED")
      = "CDU - CENTRO DE DIAGNÓSTICO UNIMED" :=
  ⟨(floor_selection_persistence (fun _ => none)
      "CDU - CENTRO DE DIAGNÓSTICO UNIMED").1 rfl,
   (floor_selection_persistence (fun _ => none)
      "CDU - CENTRO DE DIAGNÓSTICO UNIMED").2 (by decide)⟩

/-! ### C10: the two date-key helpers agree -/

/-- C10: `formatDateKey` (daily map) and `getLocalDateKey` (dashboard)
produce the identical zero-padded local date key for every date, so
both views address allocations of one calendar day under the same
string; on 2024-01-05 both produce `"2024-01-05"`. -/
theorem date_key_equivalence :
    (∀ dt : JSDate, formatDateKey dt = getLocalDateKey dt) ∧
    formatDateKey (JSDate.mk 2024 0 5) = "2024-01-05" ∧
    getLocalDateKey (JSDate.mk 2024 0 5) = "2024-01-05" := by
  refine ⟨fun dt => rfl, ?_, ?_⟩ <;> decide

end Portal
